import Mathlib

/-!
Shallow embedding of the molgenis-tools-commander core: the HTTP request
wrapper and resource operations of `src/mcmd/client/molgenis_client.py`,
and the script runners of `src/mcmd/commands/run.py` and
`src/mdev/__main__.py`.

Python exceptions are modelled with `Except`; the remote server is
modelled as an oracle supplying the sequence of replies the underlying
`requests` call would produce, one reply consumed per outbound call.
-/

namespace Mcmd

/-- Exceptions that the embedded code can raise.  `mcmdError` embeds
`McmdError` (the `DomainError` of the spec); `keyError` and `indexError`
embed Python's `KeyError`/`IndexError` escaping from dictionary/list
access. -/
inductive Exc where
  | mcmdError (msg : String)
  | keyError
  | indexError
deriving DecidableEq, Repr

/-- One element of the `errors` list of a structured MOLGENIS error
payload.  `code` and `message` are `Option` because the Python code
guards them with `'code' in error` / `'message' in error`. -/
structure ApiError where
  code : Option String
  message : Option String
deriving DecidableEq, Repr

/-- The JSON body of a response, restricted to the keys the wrapper
reads: `errors` (a list of `ApiError`) and `errorMessage`. -/
structure ResponseJson where
  errors : Option (List ApiError)
  errorMessage : Option String
deriving DecidableEq, Repr

/-- An HTTP response as seen by the wrapper: status code, the
`Content-Type` header (`none` when the header is absent) and the parsed
JSON body. -/
structure Response where
  status_code : Nat
  contentType : Option String
  json : ResponseJson
deriving DecidableEq, Repr

/-- `handle_json_error(response_json)` from `molgenis_client.request`:
if the payload has an `errors` list, the `for` loop raises `McmdError`
with the message of its first element (the unconditional `raise` in the
loop body stops iteration at the first element); else if it has an
`errorMessage`, raise `McmdError` with it; otherwise return normally. -/
def handle_json_error (rj : ResponseJson) : Except Exc Unit :=
  match rj.errors with
  | some errs =>
    match errs with
    | [] => .ok ()
    | e :: _ =>
      match e.message with
      | some m => .error (.mcmdError m)
      | none => .error .keyError
  | none =>
    match rj.errorMessage with
    | some m => .error (.mcmdError m)
    | none => .ok ()

/-- `startsWithChars l pat`: `pat` is a leading segment of `l`.  Helper
for Python's substring operator `in`. -/
def startsWithChars : List Char → List Char → Bool
  | _, [] => true
  | [], _ :: _ => false
  | c :: l, d :: pat => c == d && startsWithChars l pat

/-- `containsChars l pat`: `pat` occurs contiguously in `l` — Python's
`pat in l` on strings, on the underlying character lists. -/
def containsChars : List Char → List Char → Bool
  | [], pat => pat.isEmpty
  | c :: l, pat => startsWithChars (c :: l) pat || containsChars l pat

/-- `is_json(response)`: the `Content-Type` header is present, truthy
(non-empty) and contains the substring `application/json`. -/
def is_json (r : Response) : Bool :=
  match r.contentType with
  | none => false
  | some s => !s.toList.isEmpty && containsChars s.toList "application/json".toList

/-- Python's `str.upper`, modelled structurally over the character
list (agrees with the source on ASCII input). -/
def upperString (s : String) : String := ⟨s.data.map Char.toUpper⟩

/-- `token_is_valid(response)`: on a 401 JSON response, inspect the
first element of `errors`; the token is invalid when that error has
code `DS04` and a message starting with `No 'Read metadata' permission`.
`response.json()['errors'][0]` raises `KeyError`/`IndexError` when the
key is absent or the list empty. -/
def token_is_valid (r : Response) : Except Exc Bool :=
  if r.status_code == 401 && is_json r then
    match r.json.errors with
    | none => .error .keyError
    | some [] => .error .indexError
    | some (e :: _) =>
      if (match e.code with | some c => c == "DS04" | none => false)
          && (match e.message with
              | some m =>
                startsWithChars m.toList
                  "No 'Read metadata' permission".toList
              | none => false) then
        .ok false
      else
        .ok true
  else
    .ok true

/-- One reply of the remote server to an outbound call: either an HTTP
response (for which `raise_for_status` raises `HTTPError` when the
status is an error status) or a transport-level failure
(`requests.RequestException`, carrying the text of `str(e)`). -/
inductive Reply where
  | http (r : Response)
  | transportError (msg : String)
deriving DecidableEq, Repr

/-- `response.raise_for_status()` raises `requests.HTTPError` exactly
for 4xx/5xx status codes. -/
def is_error_status (r : Response) : Bool :=
  400 ≤ r.status_code && r.status_code < 600

/-- The outcome of `handle_request`: a returned response, a raised
`McmdError`, a raised Python error (`KeyError`/`IndexError` escaping
`token_is_valid` or `handle_json_error`), or exhaustion of the modelled
reply sequence (the wrapper needed more calls than the oracle holds —
used to exhibit unbounded recursion). -/
inductive Outcome where
  | success (r : Response)
  | mcmdError (msg : String)
  | pyError (e : Exc)
  | outOfReplies
deriving DecidableEq, Repr

/-- Result of one invocation of the wrapper: its outcome, the number of
`auth.login()` calls it performed (re-login attempts), and the server
replies not consumed. -/
structure WrapResult where
  outcome : Outcome
  logins : Nat
  rest : List Reply
deriving DecidableEq, Repr

/-- The error-decoding tail of `handle_request`'s `except HTTPError`
branch: `if is_json(response): handle_json_error(response.json())`
followed by `raise McmdError(str(e))`.  `estr` gives the text of
`str(e)` for the `HTTPError` of a response. -/
def decode_error (estr : Response → String) (r : Response) : Outcome :=
  if is_json r then
    match handle_json_error r.json with
    | .error (.mcmdError m) => .mcmdError m
    | .error e => .pyError e
    | .ok () => .mcmdError (estr r)
  else
    .mcmdError (estr r)

/-- `handle_request(*args, **kwargs)` from the `request` decorator in
`src/mcmd/client/molgenis_client.py`, lines 61-75.  Each outbound call
consumes the head of `replies`.  On an HTTP error status, when
`token_is_valid` is false the code runs `auth.login()` and recursively
re-invokes `handle_request` — WITHOUT returning its result: when the
recursive call returns normally the outer frame falls through to error
decoding of the ORIGINAL response; when it raises, the exception
propagates.  `auth.login` is not under src/ and is modelled (from the
spec's Auth Manager contract) as a succeeding token refresh, counted in
`logins`. -/
def handle_request (estr : Response → String) : List Reply → WrapResult
  | [] => ⟨.outOfReplies, 0, []⟩
  | .transportError msg :: rest => ⟨.mcmdError msg, 0, rest⟩
  | .http r :: rest =>
    if is_error_status r then
      match token_is_valid r with
      | .error e => ⟨.pyError e, 0, rest⟩
      | .ok true => ⟨decode_error estr r, 0, rest⟩
      | .ok false =>
        let inner := handle_request estr rest
        match inner.outcome with
        | .success _ => ⟨decode_error estr r, 1 + inner.logins, inner.rest⟩
        | o => ⟨o, 1 + inner.logins, inner.rest⟩
    else
      ⟨.success r, 0, rest⟩

/-- The `ResourceType` enum of `molgenis_client.py`: each member carries
(backend entity identifier, URL path segment, human label). -/
inductive ResourceType where
  | ENTITY_TYPE
  | THEME
  | PACKAGE
  | PLUGIN
deriving DecidableEq, Repr

/-- `ResourceType.get_entity_id`: the first attribute of the member. -/
def ResourceType.get_entity_id : ResourceType → String
  | .ENTITY_TYPE => "sys_md_EntityType"
  | .THEME => "sys_set_StyleSheet"
  | .PACKAGE => "sys_md_Package"
  | .PLUGIN => "sys_Plugin"

/-- `ResourceType.get_resource_name`: the second attribute (URL path
segment of the permission endpoint). -/
def ResourceType.get_resource_name : ResourceType → String
  | .ENTITY_TYPE => "entityclass"
  | .THEME => "stylesheet"
  | .PACKAGE => "package"
  | .PLUGIN => "plugin"

/-- `ResourceType.get_label`: the third attribute (human label). -/
def ResourceType.get_label : ResourceType → String
  | .ENTITY_TYPE => "Entity Type"
  | .THEME => "Stylesheet"
  | .PACKAGE => "Package"
  | .PLUGIN => "Plugin"

/-- The `PrincipalType` enum: members `USER` and `ROLE` with their
`.value` strings. -/
inductive PrincipalType where
  | USER
  | ROLE
deriving DecidableEq, Repr

/-- `PrincipalType.value`. -/
def PrincipalType.value : PrincipalType → String
  | .USER => "user"
  | .ROLE => "role"

/-- A value passed as `grant`'s `principal_type` argument.  Python is
dynamically typed, so besides the two `PrincipalType` members any other
value can arrive; `invalid` carries the string rendering of such a
value, used in the `Unknown principal type` error message. -/
inductive PrincipalArg where
  | mk (t : PrincipalType)
  | invalid (s : String)
deriving DecidableEq, Repr

/-- The string interpolated for the argument (its `.value` for enum
members, its rendering otherwise). -/
def PrincipalArg.value : PrincipalArg → String
  | .mk t => t.value
  | .invalid s => s

/-- The configuration provider: `config.api(name)` returns the base URL
of the named endpoint. -/
structure Config where
  api : String → String

/-- The single outbound `requests.post` of `grant`: URL, headers and
form payload (an ordered association list, mirroring the Python dict's
insertion order). -/
structure PostRequest where
  url : String
  headers : List (String × String)
  data : List (String × String)
deriving DecidableEq, Repr

/-- `grant(principal_type, principal_name, resource_type, identifier,
permission)` from `molgenis_client.py` lines 87-102, up to the point of
issuing its one network call: the returned `PostRequest` is that call;
an `.error` result means the function raised before any request was
built or issued.  Python's `str.upper` is modelled by `upperString`. -/
def grant (cfg : Config) (token : String) (principal_type : PrincipalArg)
    (principal_name : String) (resource_type : ResourceType)
    (identifier permission : String) : Except Exc PostRequest := do
  let data := [("radio-" ++ identifier, permission)]
  let data ← match principal_type with
    | .mk .USER => pure (data ++ [("username", principal_name)])
    | .mk .ROLE => pure (data ++ [("rolename", upperString principal_name)])
    | .invalid s => throw (Exc.mcmdError ("Unknown principal type: " ++ s))
  let url := cfg.api "perm" ++ resource_type.get_resource_name ++ "/"
      ++ principal_type.value
  pure { url := url,
         headers := [("Content-Type",
                      "application/x-www-form-urlencoded; charset=UTF-8"),
                     ("x-molgenis-token", token)],
         data := data }

/-- `resource_exists(resource_id, resource_type)` from
`molgenis_client.py` lines 160-163.  The backing store is modelled as
the oracle `total`, giving the number reported in the `total` field of
the JSON answer to a rest2 query URL (the `get` wrapper is taken on its
success path).  The code returns `int(response.json()['total']) > 0`. -/
def resource_exists (total : String → Nat) (cfg : Config)
    (resource_id : String) (resource_type : ResourceType) : Bool :=
  decide (0 < total (cfg.api "rest2" ++ resource_type.get_entity_id
      ++ "?q=id==" ++ resource_id))

/-- `ensure_resource_exists(resource_id, resource_type)` from
`molgenis_client.py` lines 172-174: raise
`McmdError('No %s found with id %s' % (label, id))` when
`resource_exists` is false, return normally otherwise. -/
def ensure_resource_exists (total : String → Nat) (cfg : Config)
    (resource_id : String) (resource_type : ResourceType) :
    Except Exc Unit :=
  if !resource_exists total cfg resource_id resource_type then
    .error (.mcmdError ("No " ++ resource_type.get_label
        ++ " found with id " ++ resource_id))
  else
    .ok ()

/-! ### Script runners

`src/mcmd/commands/run.py` and the legacy `src/mdev/__main__.py`.
Argument parsing is an external collaborator (out of scope per the
spec): `parseCommand` gives the command name the parser assigns to a
line.  The per-line dispatch (`@command`-decorated functions /
`mdev.commands.execute`) is not under src/; its `exit_on_error`
behavior is modelled from the spec: a failing line halts the script
when `exit_on_error` is true and is logged and skipped otherwise. -/

/-- Result of dispatching one parsed command line for execution. -/
inductive LineOutcome where
  | ok
  | failed
deriving DecidableEq, Repr

/-- The external collaborators of the script runners: the argument
parser and the per-line command execution. -/
structure ScriptEnv where
  parseCommand : String → String
  execOutcome : String → LineOutcome

/-- Final status of a script run of `src/mcmd/commands/run.py`. -/
inductive RunStatus where
  | finished
  | scriptError (msg : String)
  | halted (line : String)
deriving DecidableEq, Repr

/-- The line loop of `run(args)` in `src/mcmd/commands/run.py` lines
38-45.  Returns the lines dispatched for execution, in order, and the
final status.  A line parsing to the `run` command raises `McmdError`
(before any dispatch of that line), which fails the whole script.
Modelled from the spec: dispatch halts the script at a failing line iff
`exit_on_error` is true. -/
def mcmd_runLoop (env : ScriptEnv) (exit_on_error : Bool) :
    List String → List String × RunStatus
  | [] => ([], .finished)
  | line :: rest =>
    if env.parseCommand line == "run" then
      ([], .scriptError ("Can't use the run command in a script: " ++ line))
    else
      match env.execOutcome line with
      | .ok =>
        let r := mcmd_runLoop env exit_on_error rest
        (line :: r.1, r.2)
      | .failed =>
        if exit_on_error then
          ([line], .halted line)
        else
          let r := mcmd_runLoop env exit_on_error rest
          (line :: r.1, r.2)

/-- `run(args)` of `src/mcmd/commands/run.py`:
`exit_on_error = not args.ignore_errors`, then the line loop. -/
def mcmd_run (env : ScriptEnv) (ignore_errors : Bool)
    (lines : List String) : List String × RunStatus :=
  mcmd_runLoop env (!ignore_errors) lines

/-- Final status of a script run of `src/mdev/__main__.py`. -/
inductive MdevStatus where
  | finished
  | exited
  | execFailed (line : String)
deriving DecidableEq, Repr

/-- The line loop of `run(args)` in `src/mdev/__main__.py` lines 30-42.
A line parsing to the `run` command is logged as an error; then
`exit(1)` when `exit_on_error` is true, `continue` (the line is skipped,
execution proceeds) otherwise.  Other lines are dispatched via
`execute`, modelled from the spec as for the mcmd runner. -/
def mdev_runLoop (env : ScriptEnv) (exit_on_error : Bool) :
    List String → List String × MdevStatus
  | [] => ([], .finished)
  | line :: rest =>
    if env.parseCommand line == "run" then
      if exit_on_error then
        ([], .exited)
      else
        mdev_runLoop env exit_on_error rest
    else
      match env.execOutcome line with
      | .ok =>
        let r := mdev_runLoop env exit_on_error rest
        (line :: r.1, r.2)
      | .failed =>
        if exit_on_error then
          ([line], .execFailed line)
        else
          let r := mdev_runLoop env exit_on_error rest
          (line :: r.1, r.2)

/-- `run(args)` of `src/mdev/__main__.py`:
`exit_on_error = not args.ignore_errors`, then the line loop. -/
def mdev_run (env : ScriptEnv) (ignore_errors : Bool)
    (lines : List String) : List String × MdevStatus :=
  mdev_runLoop env (!ignore_errors) lines

/-! ### Concrete fixtures -/

/-- The invalid-session error message of the MOLGENIS backend. -/
def readMetaMsg : String :=
  "No 'Read metadata' permission on entity type 'X' with id 'x'."

/-- The structured error signalling an invalid/expired session. -/
def dsErr : ApiError := { code := some "DS04", message := some readMetaMsg }

/-- A 401 JSON response signalling an invalid/expired session. -/
def invalidSessionResponse : Response :=
  { status_code := 401
    contentType := some "application/json"
    json := { errors := some [dsErr], errorMessage := none } }

/-- A 200 JSON response: a successful call. -/
def okResponse : Response :=
  { status_code := 200
    contentType := some "application/json"
    json := { errors := none, errorMessage := none } }

/-- A concrete rendering of `str(e)` for the `HTTPError` of a
response. -/
def estr0 : Response → String :=
  fun r => toString r.status_code ++ " Client Error"

/-- A concrete script environment whose parser maps the line `run x`
to the `run` command and every other line to another command, and whose
command execution always succeeds. -/
def c8Env : ScriptEnv :=
  { parseCommand := fun l => if l = "run x" then "run" else "other"
    execOutcome := fun _ => .ok }

/-- A concrete script environment for the scenario [A succeeds,
B fails, C succeeds]: no line parses to the `run` command and only
line `B` fails. -/
def c9Env : ScriptEnv :=
  { parseCommand := fun _ => "import"
    execOutcome := fun l => if l = "B" then .failed else .ok }

/-! ### Theorems -/

set_option maxRecDepth 8192

/-- Unfolding lemma: when `token_is_valid` reports an invalid session,
the response satisfies the four conditions checked by the source. -/
theorem token_is_valid_eq_ok_false (r : Response)
    (h : token_is_valid r = .ok false) :
    r.status_code = 401 ∧ is_json r = true ∧
    ∃ e es, r.json.errors = some (e :: es) ∧ e.code = some "DS04" ∧
      ∃ m, e.message = some m ∧
        startsWithChars m.toList
          "No 'Read metadata' permission".toList = true := by
  unfold token_is_valid at h
  split at h
  case isFalse => simp at h
  case isTrue hcond =>
    rw [Bool.and_eq_true, beq_iff_eq] at hcond
    refine ⟨hcond.1, hcond.2, ?_⟩
    split at h
    case h_1 => simp at h
    case h_2 => simp at h
    case h_3 e es herr =>
      split at h
      case isFalse => simp at h
      case isTrue hc =>
        rw [Bool.and_eq_true] at hc
        obtain ⟨hcode, hmsg⟩ := hc
        refine ⟨e, es, herr, ?_, ?_⟩
        · revert hcode
          cases e.code with
          | none => simp
          | some c => simp only [beq_iff_eq]; rintro rfl; rfl
        · revert hmsg
          cases e.message with
          | none => simp
          | some m => exact fun hm => ⟨m, rfl, hm⟩

/-- Claim C1 (code bug): the source re-invokes `handle_request`
recursively on every invalid-session reply, so consecutive
invalid-session replies each trigger a fresh re-login and retry: three
such replies produce three re-login attempts and three retried calls,
and the wrapper still demands a further call — contradicting the
claimed bound of at most one re-login and one retry per call. -/
theorem c1_relogin_unbounded :
    handle_request estr0
      [.http invalidSessionResponse, .http invalidSessionResponse,
       .http invalidSessionResponse] =
      { outcome := .outOfReplies, logins := 3, rest := [] } := by
  decide

/-- Claim C2 (code bug): when the single re-login-and-retry succeeds,
the source discards the retried call's response (the recursive call's
result is not returned) and falls through to error decoding of the
ORIGINAL 401 response: with an invalid-session reply followed by a 200
reply, the wrapper raises `McmdError` with the original error message
instead of returning the successful response. -/
theorem c2_successful_retry_discarded :
    handle_request estr0 [.http invalidSessionResponse, .http okResponse] =
      { outcome := .mcmdError readMetaMsg, logins := 1, rest := [] } := by
  decide

/-- Claim C3 (counterexample): on a structured payload with two error
messages, `handle_json_error` raises `McmdError` carrying only the
first message; the second message is not part of the carried message,
so the messages are not aggregated. -/
theorem c3_counterexample :
    handle_json_error
      { errors := some [{ code := none, message := some "first" },
                        { code := none, message := some "second" }],
        errorMessage := none } = .error (.mcmdError "first")
    ∧ containsChars "first".toList "second".toList = false :=
  ⟨rfl, by decide⟩

/-- Claim C3 (amended): for every structured error payload whose
`errors` list is non-empty, the wrapper fails with a `DomainError`
carrying ONLY the first error's message; later messages are
discarded. -/
theorem c3_first_message_only (rj : ResponseJson) (e : ApiError)
    (es : List ApiError) (m : String)
    (herr : rj.errors = some (e :: es)) (hmsg : e.message = some m) :
    handle_json_error rj = .error (.mcmdError m) := by
  cases rj with
  | mk errs emsg =>
    cases e with
    | mk ec em =>
      dsimp only at herr hmsg
      subst herr
      subst hmsg
      rfl

/-- Witness for C3's amended theorem at a concrete payload. -/
theorem c3_first_message_only_witness :
    handle_json_error
      { errors := some [{ code := none, message := some "a" },
                        { code := none, message := some "b" }],
        errorMessage := none } = .error (.mcmdError "a") :=
  c3_first_message_only
    { errors := some [{ code := none, message := some "a" },
                      { code := none, message := some "b" }],
      errorMessage := none }
    { code := none, message := some "a" }
    [{ code := none, message := some "b" }] "a" rfl rfl

/-- Claim C4: for every resource type and identifier,
`resource_exists` returns true iff the backing store's reported total
count of records matching the identifier under the type's backend
entity identifier is greater than 0. -/
theorem c4_resource_exists_iff (total : String → Nat) (cfg : Config)
    (resource_id : String) (resource_type : ResourceType) :
    resource_exists total cfg resource_id resource_type = true ↔
      0 < total (cfg.api "rest2" ++ resource_type.get_entity_id
          ++ "?q=id==" ++ resource_id) := by
  simp [resource_exists]

/-- Claim C5: `ensure_resource_exists` raises `McmdError` iff
`resource_exists` is false; the error message is
`No <label> found with id <id>`, which contains the type's human label
and the identifier; when `resource_exists` is true it returns without
raising. -/
theorem c5_ensure_resource_exists (total : String → Nat) (cfg : Config)
    (resource_id : String) (resource_type : ResourceType) :
    (ensure_resource_exists total cfg resource_id resource_type = .ok () ↔
      resource_exists total cfg resource_id resource_type = true)
    ∧ (resource_exists total cfg resource_id resource_type = false →
        ensure_resource_exists total cfg resource_id resource_type =
          .error (.mcmdError ("No " ++ resource_type.get_label
            ++ " found with id " ++ resource_id))
        ∧ (∃ s t, "No " ++ resource_type.get_label ++ " found with id "
            ++ resource_id = s ++ resource_type.get_label ++ t)
        ∧ (∃ s, "No " ++ resource_type.get_label ++ " found with id "
            ++ resource_id = s ++ resource_id)) := by
  refine ⟨?_, fun h => ⟨?_, ?_, ?_⟩⟩
  · unfold ensure_resource_exists
    cases h : resource_exists total cfg resource_id resource_type <;> simp [h]
  · unfold ensure_resource_exists
    simp [h]
  · exact ⟨"No ", " found with id " ++ resource_id,
      String.append_assoc ("No " ++ resource_type.get_label)
        " found with id " resource_id⟩
  · exact ⟨"No " ++ resource_type.get_label ++ " found with id ", rfl⟩

/-- Witness for C5 at a concrete backend reporting a count of 0. -/
theorem c5_ensure_resource_exists_witness :
    resource_exists (fun _ => 0) (Config.mk fun _ => "api/")
      "abc" ResourceType.PACKAGE = false
    ∧ (ensure_resource_exists (fun _ => 0) (Config.mk fun _ => "api/")
        "abc" ResourceType.PACKAGE =
        .error (.mcmdError ("No " ++ ResourceType.PACKAGE.get_label
          ++ " found with id " ++ "abc"))
       ∧ (∃ s t, "No " ++ ResourceType.PACKAGE.get_label
           ++ " found with id " ++ "abc" =
           s ++ ResourceType.PACKAGE.get_label ++ t)
       ∧ (∃ s, "No " ++ ResourceType.PACKAGE.get_label
           ++ " found with id " ++ "abc" = s ++ "abc")) :=
  ⟨rfl,
   (c5_ensure_resource_exists (fun _ => 0) (Config.mk fun _ => "api/")
     "abc" ResourceType.PACKAGE).2 rfl⟩

/-- Claim C6: for every principal name, `grant` with a ROLE principal
posts a form payload whose `rolename` field is the upper-cased name,
while a USER principal yields a `username` field with the name's case
unchanged; in particular ROLE `curator` yields `CURATOR`. -/
theorem c6_grant_principal_fields (cfg : Config)
    (token principal_name : String) (resource_type : ResourceType)
    (identifier permission : String) :
    grant cfg token (.mk .ROLE) principal_name resource_type
        identifier permission =
      .ok { url := cfg.api "perm" ++ resource_type.get_resource_name
              ++ "/" ++ "role",
            headers := [("Content-Type",
                         "application/x-www-form-urlencoded; charset=UTF-8"),
                        ("x-molgenis-token", token)],
            data := [("radio-" ++ identifier, permission),
                     ("rolename", upperString principal_name)] }
    ∧ grant cfg token (.mk .USER) principal_name resource_type
        identifier permission =
      .ok { url := cfg.api "perm" ++ resource_type.get_resource_name
              ++ "/" ++ "user",
            headers := [("Content-Type",
                         "application/x-www-form-urlencoded; charset=UTF-8"),
                        ("x-molgenis-token", token)],
            data := [("radio-" ++ identifier, permission),
                     ("username", principal_name)] }
    ∧ upperString "curator" = "CURATOR" :=
  ⟨rfl, rfl, by decide⟩

/-- Claim C7: for every principal-type argument that is neither USER
nor ROLE, `grant` raises `McmdError` before its network call: the
result is an error, so the `PostRequest` modelling the one outbound
post is never built or issued. -/
theorem c7_grant_unknown_principal (cfg : Config)
    (token s principal_name : String) (resource_type : ResourceType)
    (identifier permission : String) :
    grant cfg token (.invalid s) principal_name resource_type
        identifier permission =
      .error (.mcmdError ("Unknown principal type: " ++ s)) :=
  rfl

/-- Claim C8 (counterexample): in the legacy mdev runner with
`--ignore-errors`, a line parsing to the `run` command does NOT fail
the entire script: the line is logged and skipped, and the following
line `C` is still dispatched, with the script finishing normally. -/
theorem c8_counterexample :
    c8Env.parseCommand "run x" = "run"
    ∧ mdev_run c8Env true ["run x", "C"] = (["C"], MdevStatus.finished) :=
  ⟨rfl, by decide⟩

/-- Claim C8 (amended): when the runner reaches a line parsing to the
`run` command, the mcmd runner fails the whole script with a
`ScriptError` at that line regardless of `--ignore-errors`, attempting
nothing further; the legacy mdev runner does so (via `exit(1)`) only
without `--ignore-errors`, and with the flag it skips the line and
continues with the remaining lines. -/
theorem c8_nested_run_rejected (env : ScriptEnv) (e : Bool)
    (line : String) (rest : List String)
    (h : env.parseCommand line = "run") :
    mcmd_runLoop env e (line :: rest) =
      ([], .scriptError ("Can't use the run command in a script: " ++ line))
    ∧ mdev_runLoop env true (line :: rest) = ([], .exited)
    ∧ mdev_runLoop env false (line :: rest) = mdev_runLoop env false rest := by
  refine ⟨?_, ?_, ?_⟩ <;> simp [mcmd_runLoop, mdev_runLoop, h]

/-- Witness for C8's amended theorem at a concrete environment. -/
theorem c8_nested_run_rejected_witness :
    c8Env.parseCommand "run x" = "run"
    ∧ (mcmd_runLoop c8Env true ["run x", "C"] =
        ([], .scriptError ("Can't use the run command in a script: "
          ++ "run x"))
       ∧ mdev_runLoop c8Env true ["run x", "C"] = ([], .exited)
       ∧ mdev_runLoop c8Env false ["run x", "C"] =
          mdev_runLoop c8Env false ["C"]) :=
  ⟨rfl, c8_nested_run_rejected c8Env true "run x" ["C"] rfl⟩

/-- The lines the mcmd runner dispatches form a prefix of the file
lines: execution follows file order and never reorders or skips. -/
theorem mcmd_attempted_in_file_order (env : ScriptEnv) (e : Bool) :
    ∀ lines : List String, (mcmd_runLoop env e lines).1 <+: lines := by
  intro lines
  induction lines with
  | nil => exact ⟨[], rfl⟩
  | cons line rest ih =>
    simp only [mcmd_runLoop]
    split
    · exact ⟨line :: rest, rfl⟩
    · split
      · obtain ⟨t, ht⟩ := ih
        exact ⟨t, by simp [List.cons_append, ht]⟩
      · split
        · exact ⟨rest, rfl⟩
        · obtain ⟨t, ht⟩ := ih
          exact ⟨t, by simp [List.cons_append, ht]⟩

/-- The lines the mdev runner dispatches form an order-preserving
sublist of the file lines (run lines may be skipped, never executed
out of order). -/
theorem mdev_attempted_in_file_order (env : ScriptEnv) (e : Bool) :
    ∀ lines : List String, List.Sublist (mdev_runLoop env e lines).1 lines := by
  intro lines
  induction lines with
  | nil => simp [mdev_runLoop]
  | cons line rest ih =>
    simp only [mdev_runLoop]
    split
    · split
      · exact List.nil_sublist _
      · exact List.Sublist.cons _ ih
    · split
      · exact List.Sublist.cons₂ _ ih
      · split
        · exact List.Sublist.cons₂ _ (List.nil_sublist _)
        · exact List.Sublist.cons₂ _ ih

/-- Claim C9: both script runners execute lines strictly in file order
(the dispatched lines form a prefix, resp. order-preserving sublist, of
the file lines), and on the script [A succeeds, B fails, C succeeds]
both runners attempt all three lines under `--ignore-errors` (C still
executes after B's failure) and halt at B without the flag (C never
attempted). -/
theorem c9_script_order_and_ignore_errors :
    (∀ (env : ScriptEnv) (e : Bool) (lines : List String),
        (mcmd_runLoop env e lines).1 <+: lines)
    ∧ (∀ (env : ScriptEnv) (e : Bool) (lines : List String),
        List.Sublist (mdev_runLoop env e lines).1 lines)
    ∧ mcmd_run c9Env true ["A", "B", "C"] =
        (["A", "B", "C"], RunStatus.finished)
    ∧ mcmd_run c9Env false ["A", "B", "C"] =
        (["A", "B"], RunStatus.halted "B")
    ∧ mdev_run c9Env true ["A", "B", "C"] =
        (["A", "B", "C"], MdevStatus.finished)
    ∧ mdev_run c9Env false ["A", "B", "C"] =
        (["A", "B"], MdevStatus.execFailed "B") :=
  ⟨mcmd_attempted_in_file_order, mdev_attempted_in_file_order,
   by decide, by decide, by decide, by decide⟩

/-- Claim C10: the wrapper attempts a re-login only when the first
server reply is an HTTP response with status code 401, JSON content
type, a first structured error with code `DS04`, and a message starting
with the read-metadata denial; any reply not matching all four
conditions never triggers a re-login. -/
theorem c10_relogin_only_on_invalid_session (estr : Response → String)
    (reply : Reply) (rest : List Reply)
    (h : (handle_request estr (reply :: rest)).logins ≠ 0) :
    ∃ r, reply = .http r ∧ r.status_code = 401 ∧ is_json r = true ∧
      ∃ e es, r.json.errors = some (e :: es) ∧ e.code = some "DS04" ∧
        ∃ m, e.message = some m ∧
          startsWithChars m.toList
            "No 'Read metadata' permission".toList = true := by
  cases reply with
  | transportError msg => simp [handle_request] at h
  | http r =>
    refine ⟨r, rfl, ?_⟩
    simp only [handle_request] at h
    split at h
    · split at h
      · simp at h
      · simp at h
      · next heq => exact token_is_valid_eq_ok_false r heq
    · simp at h

/-- Witness for C10 at the concrete invalid-session reply. -/
theorem c10_relogin_only_on_invalid_session_witness :
    (handle_request estr0 [.http invalidSessionResponse]).logins ≠ 0
    ∧ ∃ r, (Reply.http invalidSessionResponse) = .http r
        ∧ r.status_code = 401 ∧ is_json r = true ∧
        ∃ e es, r.json.errors = some (e :: es) ∧ e.code = some "DS04" ∧
          ∃ m, e.message = some m ∧
            startsWithChars m.toList
              "No 'Read metadata' permission".toList = true :=
  ⟨by decide,
   c10_relogin_only_on_invalid_session estr0 (.http invalidSessionResponse)
     [] (by decide)⟩

end Mcmd
